import Mathlib

/-!
Verification development for the Quantum-Virtual-Machine repository.

The repository has two Python source files:
  * `src/qiskit/qiskit_quantum_simulator.py` — the Runner
    (class `QiskitQuantumSimulator`): validates a backend name and a
    simulation-method name against fixed allow-lists, resolves the path
    `os.path.join(base, "ibm_simulators", backend)` / `{method}.dill`,
    deserializes the simulator artifact with `dill.load`, checks the loaded
    object for a `run` attribute, and exposes `transpile_circuit` / `run`.
  * `src/qiskit/save_ibm_simulators.py` — the Builder
    (function `save_ibm_simulators`): for two fixed backends and ten fixed
    methods, fetches a backend handle, builds an `AerSimulator` mirroring it,
    and serializes it to the same path, catching and logging per-item
    failures.

This file embeds both shallowly.  Python exceptions become `Except`, the
filesystem read by the Runner becomes a function from paths to load
outcomes, and the external SDK calls made by the Builder become an
environment of `Except`-valued functions.  `os.path.join`, `str.startswith`,
`str.endswith` and `str.replace` are modelled character-faithfully below.
-/

set_option maxRecDepth 4096

/-- Model of Python `str.startswith`: the pattern is a prefix of the string. -/
def pyStartsWith (s t : String) : Bool :=
  t.data.isPrefixOf s.data

/-- Model of Python `str.endswith`: the pattern is a suffix of the string,
stated via reversed character lists. -/
def pyEndsWith (s t : String) : Bool :=
  t.data.reverse.isPrefixOf s.data.reverse

/-- Model of Python `str.replace` on character lists, for a nonempty pattern
(the only case the source uses): replace non-overlapping occurrences of
`pat` by `rep`, scanning left to right.  The fuel argument (instantiated
with the length of the scanned list, which every step shortens by at least
one) keeps the recursion structural. -/
def replaceGo : Nat → List Char → List Char → List Char → List Char
  | 0, s, _, _ => s
  | fuel + 1, s, pat, rep =>
    match s with
    | [] => []
    | c :: rest =>
      if pat ≠ [] ∧ pat.isPrefixOf (c :: rest) then
        rep ++ replaceGo fuel (rest.drop (pat.length - 1)) pat rep
      else
        c :: replaceGo fuel rest pat rep

/-- Model of Python `str.replace` (nonempty pattern). -/
def pyReplace (s pat rep : String) : String :=
  ⟨replaceGo s.data.length s.data pat.data rep.data⟩

/-- Model of POSIX `os.path.join` for two components, following CPython
`posixpath.join`: an absolute second component replaces the path; otherwise
the separator is inserted unless the accumulated path is empty or already
ends with the separator. -/
def osPathJoin (a b : String) : String :=
  if pyStartsWith b "/" then b
  else if a = "" ∨ pyEndsWith a "/" = true then a ++ b
  else a ++ "/" ++ b

/-! ## Runner: `qiskit_quantum_simulator.py` -/

/-- An object deserialized from a `.dill` file, reduced to what the Runner
inspects: whether it has a `run` attribute (the duck-typed capability
check), plus an identity tag so distinct artifacts stay distinct. -/
structure SimObj where
  hasRun : Bool
  sid : Nat
deriving DecidableEq, Repr

/-- Outcome of `open` + `dill.load` at a path: the file may be missing
(`open` raises), loading may raise, or an object is produced. -/
inductive LoadResult where
  | missing
  | loadError (e : String)
  | loaded (obj : SimObj)
deriving DecidableEq, Repr

/-- The two exception classes the Runner raises: `ValueError` from the
allow-list checks, `IOError` from the wrapped load failure. -/
inductive QError where
  | valueError (msg : String)
  | ioError (msg : String)
deriving DecidableEq, Repr

/-- `QiskitQuantumSimulator.__SUPPORTED_SIMULATION_METHODS`, in source
order (a Python set literal; modelled as a list, membership is what the
code uses it for). -/
def SUPPORTED_SIMULATION_METHODS : List String :=
  [ "aer_simulator_statevector",
    "aer_simulator_density_matrix",
    "aer_simulator_stabilizer",
    "aer_simulator_matrix_product_state",
    "aer_simulator_extended_stabilizer",
    "aer_simulator_unitary",
    "aer_simulator_superop",
    "aer_simulator_statevector_gpu",
    "aer_simulator_density_matrix_gpu",
    "aer_simulator_unitary_gpu" ]

/-- `QiskitQuantumSimulator.__AVAILABLE_BACKENDS`, in source order. -/
def AVAILABLE_BACKENDS : List String :=
  [ "ibm_brisbane", "ibm_sherbrooke" ]

/-- Rendering of the backends set in the `ValueError` message
(`f"Available backends: \x7bself.__AVAILABLE_BACKENDS\x7d"`). -/
def availableBackendsRepr : String :=
  "\x7b'ibm_brisbane', 'ibm_sherbrooke'\x7d"

/-- Rendering of the methods set in the `ValueError` message. -/
def supportedMethodsRepr : String :=
  "\x7b'aer_simulator_statevector', 'aer_simulator_density_matrix', " ++
  "'aer_simulator_stabilizer', 'aer_simulator_matrix_product_state', " ++
  "'aer_simulator_extended_stabilizer', 'aer_simulator_unitary', " ++
  "'aer_simulator_superop', 'aer_simulator_statevector_gpu', " ++
  "'aer_simulator_density_matrix_gpu', 'aer_simulator_unitary_gpu'\x7d"

/-- The `ValueError` message of `__set_ibm_backend` for an unsupported
backend. -/
def unsupportedBackendMsg (b : String) : String :=
  "Unsupported IBM backend: '" ++ b ++ "'.\nAvailable backends: " ++
    availableBackendsRepr

/-- The `ValueError` message of `__set_simulator` for an unsupported
method. -/
def unsupportedMethodMsg (m : String) : String :=
  "Unsupported simulation method: '" ++ m ++ "'.\nSupported methods: " ++
    supportedMethodsRepr

/-- The inner message of the `FileNotFoundError` raised by `open` on a
missing file, as wrapped into the `IOError`. -/
def fileNotFoundMsg (filepath : String) : String :=
  "[Errno 2] No such file or directory: '" ++ filepath ++ "'"

/-- `QiskitQuantumSimulator.__load_simulator`: open and `dill.load` the
file, require a `run` attribute, and wrap any failure into an `IOError`
naming the path. -/
def loadSimulator (fs : String → LoadResult) (filepath : String) :
    Except QError SimObj :=
  match fs filepath with
  | .missing =>
      .error (.ioError ("Failed to load AerSimulator from " ++ filepath ++
        ": " ++ fileNotFoundMsg filepath))
  | .loadError e =>
      .error (.ioError ("Failed to load AerSimulator from " ++ filepath ++
        ": " ++ e))
  | .loaded obj =>
      if obj.hasRun then .ok obj
      else
        .error (.ioError ("Failed to load AerSimulator from " ++ filepath ++
          ": " ++ "Loaded object is not a valid AerSimulator."))

/-- The artifact path the Runner resolves in `__set_simulator`:
`os.path.join(base, "ibm_simulators", backend)` then
`os.path.join(folder, f"\x7bmethod\x7d.dill")`.  The three-argument Python
join folds left. -/
def resolvedPath (basePath backend method : String) : String :=
  osPathJoin (osPathJoin (osPathJoin basePath "ibm_simulators") backend)
    (method ++ ".dill")

/-- The state of a successfully constructed `QiskitQuantumSimulator`:
its two private name attributes and the loaded simulator object. -/
structure QiskitQuantumSimulator where
  ibm_backend_name : String
  simulation_method : String
  simulator : SimObj
deriving DecidableEq, Repr

/-- `QiskitQuantumSimulator.__init__`: validate the backend
(`__set_ibm_backend`), validate the method, resolve the artifact path and
load it (`__set_simulator`).  `basePath` is the environment-provided
`IBM_SIMULATORS_BASE_PATH`; `fs` is the filesystem the load sees. -/
def QiskitQuantumSimulator.init (basePath : String)
    (fs : String → LoadResult) (ibm_backend simulation_method : String) :
    Except QError QiskitQuantumSimulator :=
  if ibm_backend ∉ AVAILABLE_BACKENDS then
    .error (.valueError (unsupportedBackendMsg ibm_backend))
  else if simulation_method ∉ SUPPORTED_SIMULATION_METHODS then
    .error (.valueError (unsupportedMethodMsg simulation_method))
  else
    match loadSimulator fs (resolvedPath basePath ibm_backend simulation_method) with
    | .error e => .error e
    | .ok sim =>
        .ok { ibm_backend_name := ibm_backend,
              simulation_method := simulation_method,
              simulator := sim }

/-- Accessor `QiskitQuantumSimulator.ibm_backend` (property). -/
def QiskitQuantumSimulator.ibm_backend (s : QiskitQuantumSimulator) : String :=
  s.ibm_backend_name

/-- Accessor `QiskitQuantumSimulator.available_simulation_methods`. -/
def QiskitQuantumSimulator.available_simulation_methods
    (_s : QiskitQuantumSimulator) : List String :=
  SUPPORTED_SIMULATION_METHODS

/-- Accessor `QiskitQuantumSimulator.available_backends`. -/
def QiskitQuantumSimulator.available_backends
    (_s : QiskitQuantumSimulator) : List String :=
  AVAILABLE_BACKENDS

/-- A sampler object, as produced by `Sampler(mode=simulator)`: all the
Runner does with it is call `.run` on a list of circuits. -/
structure SamplerObj (Circuit Job : Type) where
  runFn : List Circuit → Job

/-- The external SDK surface the Runner calls: `qiskit.transpile`
(circuit, backend, optimization level) and the `SamplerV2` constructor. -/
structure QiskitSDK (Circuit Job : Type) where
  transpileExt : Circuit → SimObj → Nat → Circuit
  samplerNew : SimObj → SamplerObj Circuit Job

/-- `QiskitQuantumSimulator.transpile_circuit`: delegate to the external
transpiler with the loaded simulator as target at `optimization_level=1`. -/
def QiskitQuantumSimulator.transpile_circuit {Circuit Job : Type}
    (sdk : QiskitSDK Circuit Job) (s : QiskitQuantumSimulator)
    (circuit : Circuit) : Circuit :=
  sdk.transpileExt circuit s.simulator 1

/-- `QiskitQuantumSimulator.run`: transpile, build a sampler bound to the
loaded simulator, and submit the singleton list of the transpiled
circuit. -/
def QiskitQuantumSimulator.run {Circuit Job : Type}
    (sdk : QiskitSDK Circuit Job) (s : QiskitQuantumSimulator)
    (circuit : Circuit) : Job :=
  let transpiled := s.transpile_circuit sdk circuit
  let sampler := sdk.samplerNew s.simulator
  sampler.runFn [transpiled]

/-! ## Builder: `save_ibm_simulators.py` -/

/-- `target_backends` in `save_ibm_simulators`. -/
def target_backends : List String :=
  [ "ibm_brisbane", "ibm_sherbrooke" ]

/-- `simulation_methods` in `save_ibm_simulators`, in source order. -/
def simulation_methods : List String :=
  [ "aer_simulator_statevector",
    "aer_simulator_density_matrix",
    "aer_simulator_stabilizer",
    "aer_simulator_matrix_product_state",
    "aer_simulator_extended_stabilizer",
    "aer_simulator_unitary",
    "aer_simulator_superop",
    "aer_simulator_statevector_gpu",
    "aer_simulator_density_matrix_gpu",
    "aer_simulator_unitary_gpu" ]

/-- `device = "GPU" if method.endswith("_gpu") else "CPU"`. -/
def deriveDevice (method : String) : String :=
  if pyEndsWith method "_gpu" then "GPU" else "CPU"

/-- `base_method = method.replace("aer_simulator_", "").replace("_gpu", "")`. -/
def deriveBaseMethod (method : String) : String :=
  pyReplace (pyReplace method "aer_simulator_" "") "_gpu" ""

/-- State of a file on disk in the Builder model.  `open(filepath, "wb")`
creates or truncates the file before `dill.dump` writes to it, so a dump
failure leaves the file behind in an incomplete state. -/
inductive FileState where
  | incomplete
  | complete (sim : SimObj)
deriving DecidableEq, Repr

/-- Overwrite-or-insert into the path-keyed file map. -/
def insertFile (files : List (String × FileState)) (p : String)
    (c : FileState) : List (String × FileState) :=
  files.filter (fun kv => kv.1 ≠ p) ++ [(p, c)]

/-- The external calls `save_ibm_simulators` makes, each of which may raise:
`QiskitRuntimeService(channel, token)`, `service.backend(name)`,
`AerSimulator.from_backend(backend)`, `simulator.set_options(method, device)`
and `dill.dump(simulator, f)`.  Backend handles are opaque tags. -/
structure BuilderEnv where
  serviceInit : String → String → Except String Unit
  getBackend : String → Except String Nat
  fromBackend : Nat → Except String SimObj
  setOptions : SimObj → String → String → Except String SimObj
  dumpSim : SimObj → Except String Unit

/-- Observable effects of a Builder run: files written (keyed by path),
directories created, and lines printed. -/
structure SaveState where
  files : List (String × FileState)
  dirs : List String
  logs : List String
deriving Repr

/-- Body of the inner `for method in simulation_methods` loop: derive
device and base method, build and configure the simulator, then open the
file (creating it) and dump; any raise is caught, logged when verbose, and
the loop continues. -/
def processMethod (env : BuilderEnv) (verbose : Bool)
    (backend_name : String) (bh : Nat) (backend_dir : String)
    (st : SaveState) (method : String) : SaveState :=
  let device := deriveDevice method
  let base_method := deriveBaseMethod method
  let failLog := fun (e : String) =>
    if verbose then
      [ "Failed to save simulator for '" ++ backend_name ++ "' with method '" ++
        method ++ "': " ++ e ]
    else []
  match env.fromBackend bh with
  | .error e => { st with logs := st.logs ++ failLog e }
  | .ok sim0 =>
    match env.setOptions sim0 base_method device with
    | .error e => { st with logs := st.logs ++ failLog e }
    | .ok sim =>
      let filepath := osPathJoin backend_dir (method ++ ".dill")
      let opened := insertFile st.files filepath .incomplete
      match env.dumpSim sim with
      | .error e => { st with files := opened, logs := st.logs ++ failLog e }
      | .ok _ =>
          { st with
            files := insertFile opened filepath (.complete sim),
            logs := st.logs ++
              (if verbose then [ "Saved simulator '" ++ filepath ++ "'" ]
               else []) }

/-- Body of the outer `for backend_name in target_backends` loop: fetch the
backend handle (on raise: log and continue), create the backend directory,
then run the method loop. -/
def processBackend (env : BuilderEnv) (verbose : Bool) (root_dir : String)
    (st : SaveState) (backend_name : String) : SaveState :=
  match env.getBackend backend_name with
  | .error e =>
      { st with logs := st.logs ++
          (if verbose then
            [ "Failed to load backend '" ++ backend_name ++ "': " ++ e ]
           else []) }
  | .ok bh =>
      let backend_dir := osPathJoin root_dir backend_name
      let st1 := { st with dirs := st.dirs ++ [backend_dir] }
      simulation_methods.foldl
        (processMethod env verbose backend_name bh backend_dir) st1

/-- `save_ibm_simulators(channel, token, base_path, verbose)`: create the
root directory, initialize the service (a raise here is re-raised as
`RuntimeError` and aborts), then process each backend.  Directory creation
(`os.makedirs(..., exist_ok=True)`) is modelled as always succeeding; the
failures the source handles are the five external calls in `BuilderEnv`. -/
def save_ibm_simulators (env : BuilderEnv)
    (channel token base_path : String) (verbose : Bool) :
    Except String SaveState :=
  let root_dir := osPathJoin base_path "ibm_simulators"
  let st0 : SaveState := { files := [], dirs := [root_dir], logs := [] }
  match env.serviceInit channel token with
  | .error e => .error ("Failed to initialize QiskitRuntimeService: " ++ e)
  | .ok _ => .ok (target_backends.foldl (processBackend env verbose root_dir) st0)

/-- The path the Builder writes an artifact to:
`root_dir = join(base, "ibm_simulators")`, `backend_dir = join(root_dir,
backend)`, `filepath = join(backend_dir, f"\x7bmethod\x7d.dill")`. -/
def builderFilePath (base_path backend_name method : String) : String :=
  osPathJoin (osPathJoin (osPathJoin base_path "ibm_simulators") backend_name)
    (method ++ ".dill")

/-- Files of a Builder run that returned normally (empty map when the run
raised). -/
def filesOf (r : Except String SaveState) : List (String × FileState) :=
  match r with
  | .ok st => st.files
  | .error _ => []

/-- Logs of a Builder run that returned normally. -/
def logsOf (r : Except String SaveState) : List String :=
  match r with
  | .ok st => st.logs
  | .error _ => []

/-! ## Spec-side definitions (for refinement comparisons) -/

/-- The spec's path template
`\x7bbase_path\x7d/ibm_simulators/\x7bbackend_name\x7d/\x7bmethod_name\x7d.dill`,
read as literal substitution. -/
def templatePath (base_path backend_name method_name : String) : String :=
  base_path ++ "/ibm_simulators/" ++ backend_name ++ "/" ++ method_name ++
    ".dill"

/-- The spec's description of the base representation name: the method name
with the `aer_simulator_` prefix (14 characters) and the `_gpu` suffix
(4 characters) stripped, on character lists. -/
def specBaseMethod (method : String) : String :=
  let afterPre : List Char :=
    if pyStartsWith method "aer_simulator_" then method.data.drop 14
    else method.data
  if pyEndsWith ⟨afterPre⟩ "_gpu" then ⟨afterPre.take (afterPre.length - 4)⟩
  else ⟨afterPre⟩

/-! ## Helper lemmas -/

/-- A prefix check ignores a right appendage it never reaches. -/
theorem isPrefixOf_append_of_le {p a : List Char} (b : List Char)
    (h : p.length ≤ a.length) : p.isPrefixOf (a ++ b) = p.isPrefixOf a := by
  induction p generalizing a with
  | nil => simp [List.isPrefixOf]
  | cons c cs ih =>
    cases a with
    | nil => simp at h
    | cons d ds =>
      simp only [List.cons_append, List.isPrefixOf, List.append_eq]
      rw [ih (Nat.le_of_succ_le_succ (by simpa using h))]

/-- Appending on the left does not change a short suffix check. -/
theorem pyEndsWith_append_left (x y t : String)
    (h : t.data.length ≤ y.data.length) :
    pyEndsWith (x ++ y) t = pyEndsWith y t := by
  unfold pyEndsWith
  rw [String.data_append, List.reverse_append,
    isPrefixOf_append_of_le _ (by simpa using h)]

/-- A string with a nonempty right append part is nonempty. -/
theorem append_ne_empty (x y : String) (hy : y ≠ "") : x ++ y ≠ "" := by
  intro h
  apply hy
  have hd : (x ++ y).data = ("" : String).data := by rw [h]
  rw [String.data_append] at hd
  have : y.data = [] := by
    have := List.append_eq_nil.mp (by simpa using hd)
    exact this.2
  exact String.ext (by simpa using this)

/-- A nonempty string has a nonempty character list. -/
theorem data_length_pos (y : String) (hy : y ≠ "") : 1 ≤ y.data.length := by
  rcases y with ⟨l⟩
  cases l with
  | nil => exact absurd rfl hy
  | cons c cs => simp

/-- `osPathJoin` inserts exactly one separator when the left part is
nonempty and separator-free at its end and the right part is relative. -/
theorem osPathJoin_eq_sep (a b : String) (h1 : a ≠ "")
    (h2 : pyEndsWith a "/" = false) (h3 : pyStartsWith b "/" = false) :
    osPathJoin a b = a ++ "/" ++ b := by
  unfold osPathJoin
  rw [h3]
  simp [h1, h2]

/-- Two strings are equal when their character lists are. -/
theorem string_eq_of_data (s t : String) (h : s.data = t.data) : s = t :=
  String.ext h

/-! ## Claims -/

/-- C2: for every backend name outside the allow-list
\x7bibm_brisbane, ibm_sherbrooke\x7d, constructing the Runner raises a
`ValueError` whose message names the offending backend value, regardless of
the method argument. -/
theorem c2_invalid_backend_raises (b : String) (hb : b ∉ AVAILABLE_BACKENDS)
    (m basePath : String) (fs : String → LoadResult) :
    QiskitQuantumSimulator.init basePath fs b m =
      .error (.valueError (unsupportedBackendMsg b)) ∧
    ∃ pre post, unsupportedBackendMsg b = pre ++ b ++ post := by
  constructor
  · simp [QiskitQuantumSimulator.init, hb]
  · exact ⟨"Unsupported IBM backend: '",
      "'.\nAvailable backends: " ++ availableBackendsRepr,
      by simp [unsupportedBackendMsg, String.append_assoc]⟩

/-- Witness for C2 at the concrete backend name `"fake_backend"`. -/
theorem c2_invalid_backend_raises_witness :
    "fake_backend" ∉ AVAILABLE_BACKENDS ∧
    QiskitQuantumSimulator.init "/data" (fun _ => .missing) "fake_backend"
        "aer_simulator_statevector" =
      .error (.valueError (unsupportedBackendMsg "fake_backend")) :=
  ⟨by decide,
   (c2_invalid_backend_raises "fake_backend" (by decide)
      "aer_simulator_statevector" "/data" (fun _ => .missing)).1⟩

/-- C3: for every method name outside the ten-method allow-list, Runner
construction fails with a `ValueError`, whether the backend is valid or
not (an invalid backend yields the backend `ValueError` first, an
invalid method the method `ValueError`). -/
theorem c3_invalid_method_raises (m : String)
    (hm : m ∉ SUPPORTED_SIMULATION_METHODS) (b basePath : String)
    (fs : String → LoadResult) :
    ∃ msg, QiskitQuantumSimulator.init basePath fs b m =
      .error (.valueError msg) := by
  by_cases hb : b ∈ AVAILABLE_BACKENDS
  · exact ⟨unsupportedMethodMsg m, by simp [QiskitQuantumSimulator.init, hb, hm]⟩
  · exact ⟨unsupportedBackendMsg b, by simp [QiskitQuantumSimulator.init, hb]⟩

/-- Witness for C3 at the concrete method `"qasm_simulator"`, once with a
valid and once with an invalid backend. -/
theorem c3_invalid_method_raises_witness :
    "qasm_simulator" ∉ SUPPORTED_SIMULATION_METHODS ∧
    (∃ msg, QiskitQuantumSimulator.init "/data" (fun _ => .missing)
        "ibm_brisbane" "qasm_simulator" = .error (.valueError msg)) ∧
    (∃ msg, QiskitQuantumSimulator.init "/data" (fun _ => .missing)
        "bogus" "qasm_simulator" = .error (.valueError msg)) :=
  ⟨by decide,
   c3_invalid_method_raises "qasm_simulator" (by decide) "ibm_brisbane"
     "/data" (fun _ => .missing),
   c3_invalid_method_raises "qasm_simulator" (by decide) "bogus"
     "/data" (fun _ => .missing)⟩

/-- C8: for every circuit, `run` first transpiles via `transpile_circuit`
(which delegates to the external transpiler at optimization level 1,
targeting the loaded simulator), then submits exactly the singleton list of
the transpiled circuit to a sampler bound to the loaded simulator, and
returns that sampler's job. -/
theorem c8_run_transpiles_then_samples {Circuit Job : Type}
    (sdk : QiskitSDK Circuit Job) (s : QiskitQuantumSimulator)
    (circuit : Circuit) :
    s.run sdk circuit =
      (sdk.samplerNew s.simulator).runFn [s.transpile_circuit sdk circuit] ∧
    s.transpile_circuit sdk circuit = sdk.transpileExt circuit s.simulator 1 :=
  ⟨rfl, rfl⟩

/-- C10: the Runner's allow-lists and the Builder's fixed lists agree as
sets, for both methods and backends. -/
theorem c10_allow_lists_agree :
    (∀ x : String,
      x ∈ SUPPORTED_SIMULATION_METHODS ↔ x ∈ simulation_methods) ∧
    (∀ x : String, x ∈ AVAILABLE_BACKENDS ↔ x ∈ target_backends) := by
  constructor <;> intro x <;>
    simp [SUPPORTED_SIMULATION_METHODS, simulation_methods,
      AVAILABLE_BACKENDS, target_backends]

/-- C9: for every valid backend and method whose artifact deserializes to
an object with a `run` attribute, construction succeeds, and the accessors
return exactly the constructor arguments and the full allow-lists. -/
theorem c9_valid_construction_accessors (b m basePath : String)
    (fs : String → LoadResult) (obj : SimObj)
    (hb : b ∈ AVAILABLE_BACKENDS) (hm : m ∈ SUPPORTED_SIMULATION_METHODS)
    (hfs : fs (resolvedPath basePath b m) = .loaded obj)
    (hrun : obj.hasRun = true) :
    QiskitQuantumSimulator.init basePath fs b m =
      .ok { ibm_backend_name := b, simulation_method := m,
            simulator := obj } ∧
    ∀ st, QiskitQuantumSimulator.init basePath fs b m = .ok st →
      st.ibm_backend = b ∧ st.simulation_method = m ∧
      st.available_backends = AVAILABLE_BACKENDS ∧
      st.available_simulation_methods = SUPPORTED_SIMULATION_METHODS := by
  have hok : QiskitQuantumSimulator.init basePath fs b m =
      .ok { ibm_backend_name := b, simulation_method := m,
            simulator := obj } := by
    simp [QiskitQuantumSimulator.init, hb, hm, loadSimulator, hfs, hrun]
  refine ⟨hok, fun st hst => ?_⟩
  rw [hok] at hst
  cases hst
  exact ⟨rfl, rfl, rfl, rfl⟩

/-- Witness for C9 at `ibm_sherbrooke` / `aer_simulator_stabilizer` with a
one-file filesystem holding a run-capable object. -/
theorem c9_valid_construction_accessors_witness :
    "ibm_sherbrooke" ∈ AVAILABLE_BACKENDS ∧
    "aer_simulator_stabilizer" ∈ SUPPORTED_SIMULATION_METHODS ∧
    QiskitQuantumSimulator.init "/data" (fun _ => .loaded ⟨true, 7⟩)
        "ibm_sherbrooke" "aer_simulator_stabilizer" =
      .ok { ibm_backend_name := "ibm_sherbrooke",
            simulation_method := "aer_simulator_stabilizer",
            simulator := ⟨true, 7⟩ } :=
  ⟨by decide, by decide,
   (c9_valid_construction_accessors "ibm_sherbrooke"
      "aer_simulator_stabilizer" "/data" (fun _ => .loaded ⟨true, 7⟩)
      ⟨true, 7⟩ (by decide) (by decide) rfl rfl).1⟩

/-- C4: for every valid backend and method, a missing file, a failed
deserialization, or a loaded object without a `run` attribute each make
construction fail with an `IOError` whose message contains the resolved
path, and construction succeeds exactly when the file holds a run-capable
object. -/
theorem c4_load_failures_raise_io_error (b m basePath : String)
    (fs : String → LoadResult)
    (hb : b ∈ AVAILABLE_BACKENDS) (hm : m ∈ SUPPORTED_SIMULATION_METHODS) :
    (fs (resolvedPath basePath b m) = .missing →
      ∃ pre post, QiskitQuantumSimulator.init basePath fs b m =
        .error (.ioError (pre ++ resolvedPath basePath b m ++ post))) ∧
    (∀ e, fs (resolvedPath basePath b m) = .loadError e →
      ∃ pre post, QiskitQuantumSimulator.init basePath fs b m =
        .error (.ioError (pre ++ resolvedPath basePath b m ++ post))) ∧
    (∀ obj, fs (resolvedPath basePath b m) = .loaded obj →
      obj.hasRun = false →
      ∃ pre post, QiskitQuantumSimulator.init basePath fs b m =
        .error (.ioError (pre ++ resolvedPath basePath b m ++ post))) ∧
    ((∃ st, QiskitQuantumSimulator.init basePath fs b m = .ok st) ↔
      (∃ obj, fs (resolvedPath basePath b m) = .loaded obj ∧
        obj.hasRun = true)) := by
  refine ⟨fun hmiss => ?_, fun e herr => ?_, fun obj hobj hrun => ?_, ?_⟩
  · exact ⟨"Failed to load AerSimulator from ",
      ": " ++ fileNotFoundMsg (resolvedPath basePath b m),
      by simp [QiskitQuantumSimulator.init, hb, hm, loadSimulator, hmiss,
        String.append_assoc]⟩
  · exact ⟨"Failed to load AerSimulator from ", ": " ++ e,
      by simp [QiskitQuantumSimulator.init, hb, hm, loadSimulator, herr,
        String.append_assoc]⟩
  · exact ⟨"Failed to load AerSimulator from ",
      ": " ++ "Loaded object is not a valid AerSimulator.",
      by simp [QiskitQuantumSimulator.init, hb, hm, loadSimulator, hobj,
        hrun, String.append_assoc]⟩
  · constructor
    · rintro ⟨st, hst⟩
      simp only [QiskitQuantumSimulator.init, hb, hm] at hst
      cases hres : fs (resolvedPath basePath b m) with
      | missing => simp [loadSimulator, hres] at hst
      | loadError e => simp [loadSimulator, hres] at hst
      | loaded obj =>
        cases hrun : obj.hasRun with
        | false => simp [loadSimulator, hres, hrun] at hst
        | true => exact ⟨obj, rfl, hrun⟩
    · rintro ⟨obj, hobj, hrun⟩
      exact ⟨{ ibm_backend_name := b, simulation_method := m,
               simulator := obj },
        by simp [QiskitQuantumSimulator.init, hb, hm, loadSimulator,
          hobj, hrun]⟩

/-- Witness for C4 at `ibm_brisbane` / `aer_simulator_unitary`: the three
failure shapes raise, and an empty filesystem admits no successful
construction. -/
theorem c4_load_failures_raise_io_error_witness :
    (∃ pre post, QiskitQuantumSimulator.init "/data" (fun _ => .missing)
        "ibm_brisbane" "aer_simulator_unitary" =
      .error (.ioError (pre ++
        resolvedPath "/data" "ibm_brisbane" "aer_simulator_unitary" ++
        post))) ∧
    (∃ pre post, QiskitQuantumSimulator.init "/data"
        (fun _ => .loadError "bad pickle") "ibm_brisbane"
        "aer_simulator_unitary" =
      .error (.ioError (pre ++
        resolvedPath "/data" "ibm_brisbane" "aer_simulator_unitary" ++
        post))) ∧
    (∃ pre post, QiskitQuantumSimulator.init "/data"
        (fun _ => .loaded ⟨false, 3⟩) "ibm_brisbane"
        "aer_simulator_unitary" =
      .error (.ioError (pre ++
        resolvedPath "/data" "ibm_brisbane" "aer_simulator_unitary" ++
        post))) ∧
    ¬ ∃ st, QiskitQuantumSimulator.init "/data" (fun _ => .missing)
        "ibm_brisbane" "aer_simulator_unitary" = .ok st :=
  ⟨(c4_load_failures_raise_io_error "ibm_brisbane" "aer_simulator_unitary"
      "/data" (fun _ => .missing) (by decide) (by decide)).1 rfl,
   (c4_load_failures_raise_io_error "ibm_brisbane" "aer_simulator_unitary"
      "/data" (fun _ => .loadError "bad pickle") (by decide)
      (by decide)).2.1 "bad pickle" rfl,
   (c4_load_failures_raise_io_error "ibm_brisbane" "aer_simulator_unitary"
      "/data" (fun _ => .loaded ⟨false, 3⟩) (by decide) (by decide)).2.2.1
      ⟨false, 3⟩ rfl rfl,
   fun hex => by
     have h := ((c4_load_failures_raise_io_error "ibm_brisbane"
        "aer_simulator_unitary" "/data" (fun _ => .missing) (by decide)
        (by decide)).2.2.2.mp hex)
     obtain ⟨obj, hobj, _⟩ := h
     exact absurd hobj (by simp)⟩

/-- C5: once the service handle exists, the bulk save returns normally:
backend-fetch failures and per-method construction or serialization
failures are caught inside the loops, so no per-item failure aborts the
run. -/
theorem c5_bulk_save_returns_normally (env : BuilderEnv)
    (channel token base_path : String) (verbose : Bool)
    (h : env.serviceInit channel token = .ok ()) :
    ∃ st, save_ibm_simulators env channel token base_path verbose =
      .ok st := by
  simp only [save_ibm_simulators, h]
  exact ⟨_, rfl⟩

/-- Environment for the C5 witness: the second backend is unreachable and
every serialization attempt raises, yet the run must return normally. -/
def envPartialFailure : BuilderEnv :=
  { serviceInit := fun _ _ => .ok (),
    getBackend := fun n =>
      if n = "ibm_brisbane" then .ok 0 else .error "backend offline",
    fromBackend := fun h => .ok ⟨true, h⟩,
    setOptions := fun s _ _ => .ok s,
    dumpSim := fun _ => .error "cannot pickle simulator" }

/-- Witness for C5: with `envPartialFailure` every item fails, and the call
still returns normally. -/
theorem c5_bulk_save_returns_normally_witness :
    envPartialFailure.serviceInit "ibm_quantum" "tok" = .ok () ∧
    ∃ st, save_ibm_simulators envPartialFailure "ibm_quantum" "tok" "/data"
      true = .ok st :=
  ⟨rfl,
   c5_bulk_save_returns_normally envPartialFailure "ibm_quantum" "tok"
     "/data" true rfl⟩

/-- C7: for each of the ten fixed method names, the derived device is GPU
exactly when the name ends in `_gpu` (else CPU), and the
`str.replace`-chain base name equals the prefix-and-suffix-stripped name
the spec describes. -/
theorem c7_device_and_base_method (m : String)
    (hm : m ∈ simulation_methods) :
    (deriveDevice m = "GPU" ↔ pyEndsWith m "_gpu" = true) ∧
    (deriveDevice m = "CPU" ↔ pyEndsWith m "_gpu" = false) ∧
    deriveBaseMethod m = specBaseMethod m := by
  fin_cases hm <;> exact ⟨by decide, by decide, by decide⟩

/-- Witness for C7 at the GPU method `aer_simulator_density_matrix_gpu`. -/
theorem c7_device_and_base_method_witness :
    "aer_simulator_density_matrix_gpu" ∈ simulation_methods ∧
    deriveBaseMethod "aer_simulator_density_matrix_gpu" =
      specBaseMethod "aer_simulator_density_matrix_gpu" :=
  ⟨by decide,
   (c7_device_and_base_method "aer_simulator_density_matrix_gpu"
      (by decide)).2.2⟩

/-- Environment for the C6 counterexample: construction succeeds but every
`dill.dump` raises, after `open(filepath, "wb")` has already created the
file. -/
def envDumpFails : BuilderEnv :=
  { serviceInit := fun _ _ => .ok (),
    getBackend := fun _ => .ok 0,
    fromBackend := fun _ => .ok ⟨true, 1⟩,
    setOptions := fun s _ _ => .ok s,
    dumpSim := fun _ => .error "cannot pickle simulator" }

/-- Counterexample to C6 as stated: a serialization failure for
`(ibm_brisbane, aer_simulator_statevector)` is logged as a failed save,
yet a file is left at the resolved artifact path (created by `open` in
`"wb"` mode before `dill.dump` raised), in an incomplete state. -/
theorem c6_counterexample :
    List.lookup
        (builderFilePath "/data" "ibm_brisbane" "aer_simulator_statevector")
        (filesOf (save_ibm_simulators envDumpFails "c" "t" "/data" true)) =
      some FileState.incomplete ∧
    ("Failed to save simulator for 'ibm_brisbane' with method " ++
      "'aer_simulator_statevector': cannot pickle simulator") ∈
      logsOf (save_ibm_simulators envDumpFails "c" "t" "/data" true) := by
  decide

/-- C6 amended: if the save step for an item fails during simulator
construction (`AerSimulator.from_backend` or `set_options`), the item
writes no file; if it fails during serialization (`dill.dump`), the file
created by opening for write remains at the resolved path in an
incomplete state. -/
theorem c6_amended_failed_item_files (env : BuilderEnv) (verbose : Bool)
    (backend_name : String) (bh : Nat) (backend_dir : String)
    (st : SaveState) (m : String) :
    (∀ e, env.fromBackend bh = .error e →
      (processMethod env verbose backend_name bh backend_dir st m).files =
        st.files) ∧
    (∀ s0 e, env.fromBackend bh = .ok s0 →
      env.setOptions s0 (deriveBaseMethod m) (deriveDevice m) = .error e →
      (processMethod env verbose backend_name bh backend_dir st m).files =
        st.files) ∧
    (∀ s0 s e, env.fromBackend bh = .ok s0 →
      env.setOptions s0 (deriveBaseMethod m) (deriveDevice m) = .ok s →
      env.dumpSim s = .error e →
      (processMethod env verbose backend_name bh backend_dir st m).files =
        insertFile st.files (osPathJoin backend_dir (m ++ ".dill"))
          .incomplete) := by
  refine ⟨fun e h1 => ?_, fun s0 e h1 h2 => ?_, fun s0 s e h1 h2 h3 => ?_⟩
  · simp [processMethod, h1]
  · simp [processMethod, h1, h2]
  · simp [processMethod, h1, h2, h3]

/-- Environment for the C6-amended witness: `set_options` raises. -/
def envOptionsFail : BuilderEnv :=
  { serviceInit := fun _ _ => .ok (),
    getBackend := fun _ => .ok 0,
    fromBackend := fun _ => .error "service timeout",
    setOptions := fun _ _ _ => .error "unknown option",
    dumpSim := fun _ => .ok () }

/-- Witness for the amended C6, covering the construction-failure cases
(no file) and the serialization-failure case (incomplete file left). -/
theorem c6_amended_failed_item_files_witness :
    (processMethod envOptionsFail true "ibm_brisbane" 0
        "/data/ibm_simulators/ibm_brisbane" ⟨[], [], []⟩
        "aer_simulator_statevector").files = [] ∧
    (processMethod envDumpFails true "ibm_brisbane" 0
        "/data/ibm_simulators/ibm_brisbane" ⟨[], [], []⟩
        "aer_simulator_statevector").files =
      insertFile []
        (osPathJoin "/data/ibm_simulators/ibm_brisbane"
          ("aer_simulator_statevector" ++ ".dill")) .incomplete :=
  ⟨(c6_amended_failed_item_files envOptionsFail true "ibm_brisbane" 0
      "/data/ibm_simulators/ibm_brisbane" ⟨[], [], []⟩
      "aer_simulator_statevector").1 "service timeout" rfl,
   (c6_amended_failed_item_files envDumpFails true "ibm_brisbane" 0
      "/data/ibm_simulators/ibm_brisbane" ⟨[], [], []⟩
      "aer_simulator_statevector").2.2 ⟨true, 1⟩ ⟨true, 1⟩
      "cannot pickle simulator" rfl rfl rfl⟩

/-- Counterexample to C1 as stated: for the base path `"/data/"` (ending
in a separator) the resolved path is
`/data/ibm_simulators/...` — `os.path.join` does not insert another
separator — while literal substitution into the template
`\x7bbase_path\x7d/ibm_simulators/...` yields `/data//ibm_simulators/...`,
a different string. -/
theorem c1_counterexample :
    resolvedPath "/data/" "ibm_brisbane" "aer_simulator_statevector" =
      "/data/ibm_simulators/ibm_brisbane/aer_simulator_statevector.dill" ∧
    resolvedPath "/data/" "ibm_brisbane" "aer_simulator_statevector" ≠
      templatePath "/data/" "ibm_brisbane" "aer_simulator_statevector" := by
  decide

/-- For a nonempty base path with no trailing separator and
separator-free components, the joined path is the literal template. -/
theorem resolvedPath_eq_template (base b m : String) (h1 : base ≠ "")
    (h2 : pyEndsWith base "/" = false)
    (hb1 : pyStartsWith b "/" = false) (hb2 : b ≠ "")
    (hb3 : pyEndsWith b "/" = false)
    (hm1 : pyStartsWith (m ++ ".dill") "/" = false) :
    resolvedPath base b m = templatePath base b m := by
  have e1 : osPathJoin base "ibm_simulators" =
      base ++ "/" ++ "ibm_simulators" :=
    osPathJoin_eq_sep base "ibm_simulators" h1 h2 (by decide)
  have ne1 : base ++ "/" ++ "ibm_simulators" ≠ "" :=
    append_ne_empty _ _ (by decide)
  have ew1 : pyEndsWith (base ++ "/" ++ "ibm_simulators") "/" = false := by
    rw [pyEndsWith_append_left (base ++ "/") "ibm_simulators" "/"
      (by decide)]
    decide
  have e2 : osPathJoin (base ++ "/" ++ "ibm_simulators") b =
      base ++ "/" ++ "ibm_simulators" ++ "/" ++ b :=
    osPathJoin_eq_sep _ b ne1 ew1 hb1
  have ne2 : base ++ "/" ++ "ibm_simulators" ++ "/" ++ b ≠ "" :=
    append_ne_empty _ _ hb2
  have ew2 : pyEndsWith (base ++ "/" ++ "ibm_simulators" ++ "/" ++ b) "/" =
      false := by
    have hlen : ("/" : String).data.length ≤ b.data.length := by
      have hp := data_length_pos b hb2
      have hq : ("/" : String).data.length = 1 := by decide
      omega
    rw [pyEndsWith_append_left (base ++ "/" ++ "ibm_simulators" ++ "/") b
      "/" hlen]
    exact hb3
  have e3 : osPathJoin (base ++ "/" ++ "ibm_simulators" ++ "/" ++ b)
      (m ++ ".dill") =
      base ++ "/" ++ "ibm_simulators" ++ "/" ++ b ++ "/" ++ (m ++ ".dill") :=
    osPathJoin_eq_sep _ _ ne2 ew2 hm1
  unfold resolvedPath templatePath
  rw [e1, e2, e3,
    show ("/ibm_simulators/" : String) = "/" ++ "ibm_simulators" ++ "/"
      from by decide]
  apply string_eq_of_data
  simp [String.data_append, List.append_assoc]

/-- C1 amended: the resolved artifact path is a pure function of
(base path, backend, method) — Runner and Builder compute the identical
path for identical arguments — and for every nonempty base path without a
trailing separator and every allow-listed backend and method it equals the
template `\x7bbase_path\x7d/ibm_simulators/\x7bbackend\x7d/\x7bmethod\x7d.dill`
(for a base path ending in `/`, `os.path.join` collapses the separator, so
the literal template misses by one `/`). -/
theorem c1_path_pure_and_template (base b m : String) (h1 : base ≠ "")
    (h2 : pyEndsWith base "/" = false) (hb : b ∈ AVAILABLE_BACKENDS)
    (hm : m ∈ SUPPORTED_SIMULATION_METHODS) :
    resolvedPath base b m = templatePath base b m ∧
    builderFilePath base b m = resolvedPath base b m := by
  refine ⟨?_, rfl⟩
  fin_cases hb <;> fin_cases hm <;>
    exact resolvedPath_eq_template base _ _ h1 h2 (by decide) (by decide)
      (by decide) (by decide)

/-- Witness for the amended C1 at base path `"/data"`. -/
theorem c1_path_pure_and_template_witness :
    ("/data" : String) ≠ "" ∧ pyEndsWith "/data" "/" = false ∧
    resolvedPath "/data" "ibm_brisbane" "aer_simulator_statevector" =
      templatePath "/data" "ibm_brisbane" "aer_simulator_statevector" :=
  ⟨by decide, by decide,
   (c1_path_pure_and_template "/data" "ibm_brisbane"
      "aer_simulator_statevector" (by decide) (by decide) (by decide)
      (by decide)).1⟩
